import Mathlib

/-!
# The ECR authorization-token generator

A shallow embedding of `pkg/generator/ecr/ecr.go`: the method `Generator.Generate`
and its helper `parseSpec`, together with models of the Go values they handle
(errors built by `fmt.Errorf`, `time.Time`, `strconv.FormatInt`, byte slices, maps)
and of the collaborators they call (the JSON decoder, the AWS session helper and the
ECR client), which are passed in as a record of functions.

A run of `Generate` is a pair: the list of collaborator calls it issued, in order,
and the way it ended — a returned `(map, error)` pair or a runtime panic.
-/

namespace ECR

/-! ## Go values -/

/-- A Go byte slice `[]byte`. -/
abbrev Bytes := List UInt8

/-- The conversion `[]byte(s)`: the bytes of the string. -/
def toBytes (s : String) : Bytes := s.toUTF8.data.toList

/-- A Go `error` value as `fmt.Errorf` and `errors.Unwrap` see it: a message and,
for an error built with the verb `%w`, the error it wraps. -/
inductive GoError where
  | errorString (s : String)
  | wrapError (msg : String) (err : GoError)
  deriving DecidableEq

/-- The method `Error()`. -/
def GoError.Error : GoError → String
  | .errorString s => s
  | .wrapError msg _ => msg

/-- The function `errors.Unwrap`. -/
def GoError.Unwrap : GoError → Option GoError
  | .errorString _ => none
  | .wrapError _ err => some err

/-- The least `int64`. -/
def minInt64 : Int := -9223372036854775808

/-- The greatest `int64`. -/
def maxInt64 : Int := 9223372036854775807

/-- A Go `int64`. -/
abbrev GoInt64 := { i : Int // minInt64 ≤ i ∧ i ≤ maxInt64 }

/-- The character of a decimal digit. -/
def digitChar (d : Nat) : Char := Char.ofNat (48 + d)

/-- The digit loop of `strconv.FormatInt` in base 10: the digits of `u`, most
significant first, in front of `acc`. The first argument bounds the number of
iterations; `u + 1` is always enough. -/
def formatBits : Nat → Nat → List Char → List Char
  | 0, _, acc => acc
  | fuel + 1, u, acc =>
    if u < 10 then digitChar u :: acc
    else formatBits fuel (u / 10) (digitChar (u % 10) :: acc)

/-- The call `strconv.FormatInt(i, 10)`, which is also how `fmt` renders `%d`:
the decimal digits of `i`, after a `-` when `i` is negative. -/
def FormatInt (i : Int) : String :=
  if i < 0 then String.mk ('-' :: formatBits ((-i).toNat + 1) (-i).toNat [])
  else String.mk (formatBits (i.toNat + 1) i.toNat [])

/-- The value of a decimal digit character, if it is one. -/
def digitVal (c : Char) : Option Nat :=
  if 48 ≤ c.toNat ∧ c.toNat ≤ 57 then some (c.toNat - 48) else none

/-- The digit loop of `strconv.ParseUint` in base 10: the value of a run of digits read
after `acc`, or nothing if a character is not a digit. -/
def parseDigits : List Char → Nat → Option Nat
  | [], acc => some acc
  | c :: cs, acc =>
    match digitVal c with
    | none => none
    | some d => parseDigits cs (acc * 10 + d)

/-- The call `strconv.ParseUint(s, 10, 64)` on the characters of `s`: the number
written by a non-empty run of decimal digits, nothing otherwise. -/
def ParseUint (cs : List Char) : Option Nat :=
  match cs with
  | [] => none
  | _ :: _ => parseDigits cs 0

/-- The call `strconv.ParseInt(s, 10, 64)`: the `int64` written by `s`, an optional
sign followed by at least one decimal digit; nothing when `s` is not of that form
or the number is out of range. -/
def ParseInt (s : String) : Option Int :=
  match s.data with
  | [] => none
  | c :: cs =>
    let neg : Bool := decide (c = '-')
    let s0 := if c = '+' ∨ c = '-' then cs else c :: cs
    match ParseUint s0 with
    | none => none
    | some un =>
      if neg = false ∧ (un : Int) ≥ maxInt64 + 1 then none
      else if neg = true ∧ (un : Int) > maxInt64 + 1 then none
      else some (if neg = true then -(un : Int) else (un : Int))

/-- An operand of `fmt.Errorf`. -/
inductive Arg where
  | err (e : GoError)
  | int (i : Int)

/-- The expansion of a format by `fmt.Errorf` for the two verbs this package uses:
`%w` writes the message of an error operand and records that error as wrapped,
`%d` writes an integer operand in decimal; every other character is copied. -/
def expand : List Char → List Arg → List Char × Option GoError
  | [], _ => ([], none)
  | '%' :: 'w' :: rest, .err e :: args => (e.Error.data ++ (expand rest args).1, some e)
  | '%' :: 'd' :: rest, .int i :: args =>
    ((FormatInt i).data ++ (expand rest args).1, (expand rest args).2)
  | c :: rest, args => (c :: (expand rest args).1, (expand rest args).2)

/-- The call `fmt.Errorf(format, args...)`: an error that wraps the operand of `%w`
when the format has one, a plain error otherwise. -/
def Errorf (format : String) (args : List Arg) : GoError :=
  match (expand format.data args).2 with
  | some e => .wrapError (String.mk (expand format.data args).1) e
  | none => .errorString (String.mk (expand format.data args).1)

/-- A `*time.Location`. -/
structure Location where
  name : String
  deriving DecidableEq

/-- The location `time.UTC`. -/
def utcLoc : Location := ⟨"UTC"⟩

/-- A `time.Time`: an instant, held as the whole seconds elapsed since the Unix epoch
(an `int64`, negative before the epoch) and the nanoseconds into that second, and the
location the instant is expressed in. -/
structure Time where
  sec : GoInt64
  nsec : Fin 1000000000
  loc : Location

/-- The instant of a time, in nanoseconds since the Unix epoch. -/
def Time.UnixNano (t : Time) : Int := t.sec.val * 1000000000 + (t.nsec.val : Int)

/-- The method `UTC()`: the same instant, expressed in UTC. -/
def Time.UTC (t : Time) : Time := { t with loc := utcLoc }

/-- The method `Unix()`: the seconds elapsed since the Unix epoch. -/
def Time.Unix (t : Time) : Int := t.sec.val

/-- A Go `map[string][]byte`, as the list of its entries. -/
abbrev GoMap := List (String × Bytes)

/-- The keys of a map. -/
def GoMap.keys (m : GoMap) : List String := m.map Prod.fst

/-- The index expression `m[k]` with its presence flag. -/
def GoMap.get (m : GoMap) (k : String) : Option Bytes := m.lookup k

/-! ## The types of the collaborators -/

/-- A `context.Context`. -/
structure Context where
  id : Nat
  deriving DecidableEq

/-- A `client.Client` of controller-runtime. -/
structure KubeClient where
  id : Nat
  deriving DecidableEq

/-- A `*session.Session` of the AWS SDK. -/
structure Session where
  id : Nat
  deriving DecidableEq

/-- An STS provider of package `awsauth`. -/
structure STSProvider where
  id : Nat
  deriving DecidableEq

/-- A JWT provider of package `awsauth`. -/
structure JWTProvider where
  id : Nat
  deriving DecidableEq

/-- Modelled from the spec: the type `AWSAuth` of `apis/generators/v1alpha1`, whose
declaration is not among the sources; `spec.auth` is an optional structured credential
override, here a reference to a secret and a reference to a service account. -/
structure AWSAuth where
  SecretRef : Option String
  JWTAuth : Option String
  deriving DecidableEq

/-- Modelled from the spec: the type `ECRAuthorizationTokenSpec` of
`apis/generators/v1alpha1`, whose declaration is not among the sources: the region,
the optional auth override and the optional role. -/
structure ECRAuthorizationTokenSpec where
  Region : String
  Auth : AWSAuth
  Role : String
  deriving DecidableEq

/-- Modelled from the spec: the type `ECRAuthorizationToken` of
`apis/generators/v1alpha1`, whose declaration is not among the sources; only its field
`Spec` is read. -/
structure ECRAuthorizationToken where
  Spec : ECRAuthorizationTokenSpec
  deriving DecidableEq

/-- The zero value of `ECRAuthorizationToken`, what `var spec` declares. -/
def ECRAuthorizationToken.zero : ECRAuthorizationToken := ⟨⟨"", ⟨none, none⟩, ""⟩⟩

/-- An `apiextensions.JSON`: the raw bytes of a configuration payload. -/
structure JSON where
  Raw : Bytes
  deriving DecidableEq

/-- An `ecr.AuthorizationData`: every field is a pointer and may be nil. -/
structure AuthorizationData where
  AuthorizationToken : Option String
  ExpiresAt : Option Time
  ProxyEndpoint : Option String

/-- An `ecr.GetAuthorizationTokenOutput`: a slice of pointers to authorization records. -/
structure GetAuthorizationTokenOutput where
  AuthorizationData : List (Option AuthorizationData)

/-- An `ecr.GetAuthorizationTokenInput`; `Generate` passes the empty one. -/
structure GetAuthorizationTokenInput where
  registryIds : List String
  deriving DecidableEq

/-- An `*ecr.ECR` client, which holds the session it was made from. -/
structure ECRClient where
  sess : Session
  deriving DecidableEq

/-- The constructor `ecr.New(sess)`. -/
def ecrNew (sess : Session) : ECRClient := ⟨sess⟩

/-- The collaborators of `Generate`: the JSON decoder `json.Unmarshal`, which fills a
value from bytes and reports an error; the session helper `awsauth.NewGeneratorSession`
with the two default providers; and the method `GetAuthorizationToken` of the ECR
client. Each returns a value and an error, as in Go. -/
structure Deps where
  Unmarshal : Bytes → ECRAuthorizationToken → ECRAuthorizationToken × Option GoError
  DefaultSTSProvider : STSProvider
  DefaultJWTProvider : JWTProvider
  NewGeneratorSession : Context → AWSAuth → String → String → KubeClient → String →
    STSProvider → JWTProvider → Session × Option GoError
  GetAuthorizationToken : ECRClient → GetAuthorizationTokenInput →
    GetAuthorizationTokenOutput × Option GoError

/-- A call issued to a collaborator, with its arguments. -/
inductive Call where
  | NewGeneratorSession (ctx : Context) (auth : AWSAuth) (role region : String)
      (kube : KubeClient) (ns : String) (sts : STSProvider) (jwt : JWTProvider)
  | GetAuthorizationToken (client : ECRClient) (input : GetAuthorizationTokenInput)
  deriving DecidableEq

/-- Whether a call is to the authentication delegate. -/
def Call.isAuth : Call → Bool
  | .NewGeneratorSession .. => true
  | .GetAuthorizationToken .. => false

/-- Whether a call is to the registry delegate. -/
def Call.isRegistry : Call → Bool
  | .NewGeneratorSession .. => false
  | .GetAuthorizationToken .. => true

/-- How a call of `Generate` ends: it returns its two results, or it panics. -/
inductive Outcome where
  | returned (bundle : Option GoMap) (err : Option GoError)
  | panicked (msg : String)
  deriving DecidableEq

/-- A run of `Generate`: the collaborator calls it issued, in order, and how it ended. -/
structure Run where
  calls : List Call
  outcome : Outcome
  deriving DecidableEq

/-! ## The package -/

/-- The constant `errNoSpec`. -/
def errNoSpec : String := "no config spec provided"

/-- The constant `errParseSpec`. -/
def errParseSpec : String := "unable to parse spec: %w"

/-- The constant `errCreateSess`. -/
def errCreateSess : String := "unable to create aws session: %w"

/-- The constant `errGetToken`. -/
def errGetToken : String := "unable to get authorization token: %w"

/-- The message of the runtime panic raised by a nil pointer dereference. -/
def nilDereference : String :=
  "runtime error: invalid memory address or nil pointer dereference"

/-- The message of the runtime panic raised by indexing an empty slice at 0. -/
def indexOutOfRange : String := "runtime error: index out of range [0] with length 0"

/-- The function `parseSpec`: decode the bytes into a fresh `ECRAuthorizationToken`
and return it together with the decoder's error. -/
def parseSpec (d : Deps) (data : Bytes) : ECRAuthorizationToken × Option GoError :=
  let spec := ECRAuthorizationToken.zero
  let r := d.Unmarshal data spec
  (r.1, r.2)

/-- The method `Generator.Generate`. -/
def Generate (d : Deps) (ctx : Context) (jsonSpec : Option JSON) (kube : KubeClient)
    (ns : String) : Run :=
  match jsonSpec with
  | none => ⟨[], .returned none (some (Errorf errNoSpec []))⟩
  | some js =>
    let res := (parseSpec d js.Raw).1
    match (parseSpec d js.Raw).2 with
    | some err => ⟨[], .returned none (some (Errorf errParseSpec [.err err]))⟩
    | none =>
      let c1 := Call.NewGeneratorSession ctx res.Spec.Auth res.Spec.Role res.Spec.Region
        kube ns d.DefaultSTSProvider d.DefaultJWTProvider
      let s := d.NewGeneratorSession ctx res.Spec.Auth res.Spec.Role res.Spec.Region
        kube ns d.DefaultSTSProvider d.DefaultJWTProvider
      match s.2 with
      | some err => ⟨[c1], .returned none (some (Errorf errCreateSess [.err err]))⟩
      | none =>
        let client := ecrNew s.1
        let c2 := Call.GetAuthorizationToken client ⟨[]⟩
        let o := d.GetAuthorizationToken client ⟨[]⟩
        match o.2 with
        | some err => ⟨[c1, c2], .returned none (some (Errorf errGetToken [.err err]))⟩
        | none =>
          let out := o.1
          if out.AuthorizationData.length ≠ 1 then
            ⟨[c1, c2], .returned none (some (Errorf
              "unexpected number of authorization tokens. expected 1, found %d"
              [.int out.AuthorizationData.length]))⟩
          else
            match out.AuthorizationData[0]? with
            | none => ⟨[c1, c2], .panicked indexOutOfRange⟩
            | some none => ⟨[c1, c2], .panicked nilDereference⟩
            | some (some data) =>
              match data.ExpiresAt with
              | none => ⟨[c1, c2], .panicked nilDereference⟩
              | some expiresAt =>
                let exp := expiresAt.UTC.Unix
                match data.AuthorizationToken with
                | none => ⟨[c1, c2], .panicked nilDereference⟩
                | some token =>
                  match data.ProxyEndpoint with
                  | none => ⟨[c1, c2], .panicked nilDereference⟩
                  | some endpoint =>
                    ⟨[c1, c2], .returned (some [
                      ("authorization_token", toBytes token),
                      ("proxy_endpoint", toBytes endpoint),
                      ("expires_at", toBytes (FormatInt exp))]) none⟩

/-! ## The vocabulary of the statements -/

/-- The specification `Generate` decodes from a payload. -/
def decoded (d : Deps) (js : JSON) : ECRAuthorizationToken :=
  (d.Unmarshal js.Raw ECRAuthorizationToken.zero).1

/-- The error of the decoder on a payload. -/
def decodeErr (d : Deps) (js : JSON) : Option GoError :=
  (d.Unmarshal js.Raw ECRAuthorizationToken.zero).2

/-- The call `Generate` issues to the authentication delegate: the context, the decoded
auth, role and region, the kube client, the namespace and the two default providers. -/
def authCall (d : Deps) (ctx : Context) (js : JSON) (kube : KubeClient) (ns : String) :
    Call :=
  .NewGeneratorSession ctx (decoded d js).Spec.Auth (decoded d js).Spec.Role
    (decoded d js).Spec.Region kube ns d.DefaultSTSProvider d.DefaultJWTProvider

/-- What the authentication delegate answers to that call. -/
def authResult (d : Deps) (ctx : Context) (js : JSON) (kube : KubeClient) (ns : String) :
    Session × Option GoError :=
  d.NewGeneratorSession ctx (decoded d js).Spec.Auth (decoded d js).Spec.Role
    (decoded d js).Spec.Region kube ns d.DefaultSTSProvider d.DefaultJWTProvider

/-- The call `Generate` issues to the registry delegate: the client made from the
session, with an empty input. -/
def registryCall (d : Deps) (ctx : Context) (js : JSON) (kube : KubeClient) (ns : String) :
    Call :=
  .GetAuthorizationToken (ecrNew (authResult d ctx js kube ns).1) ⟨[]⟩

/-- What the registry delegate answers to that call. -/
def registryResult (d : Deps) (ctx : Context) (js : JSON) (kube : KubeClient)
    (ns : String) : GetAuthorizationTokenOutput × Option GoError :=
  d.GetAuthorizationToken (ecrNew (authResult d ctx js kube ns).1) ⟨[]⟩

/-- The bundle `Generate` builds from a token, an endpoint and an expiry. -/
def bundleOf (token endpoint : String) (expiresAt : Time) : GoMap :=
  [("authorization_token", toBytes token), ("proxy_endpoint", toBytes endpoint),
    ("expires_at", toBytes (FormatInt expiresAt.UTC.Unix))]

/-- The last step of `Generate`, on the single record of the registry's answer: the
bundle when the record and its three fields are present, a panic otherwise. -/
def assemble (r : Option AuthorizationData) : Outcome :=
  match r with
  | some ⟨some token, some expiresAt, some endpoint⟩ =>
    .returned (some (bundleOf token endpoint expiresAt)) none
  | _ => .panicked nilDereference

/-- The characters `ds` write the number `u` in decimal: a non-empty run of digit
characters that the digit loop of the reader turns into `u`. -/
def Renders (ds : List Char) (u : Nat) : Prop :=
  ds ≠ [] ∧ (∀ c ∈ ds, ∃ k, k < 10 ∧ c = digitChar k) ∧
    ∀ (tail : List Char) (acc : Nat),
      parseDigits (ds ++ tail) acc = parseDigits tail (acc * 10 ^ ds.length + u)

/-- The six ways a call of `Generate` is specified to end. -/
inductive Path where
  | Success
  | MissingSpec
  | InvalidSpec
  | AuthFailure
  | UpstreamFailure
  | UnexpectedResponseShape
  deriving DecidableEq

/-- An outcome is that of a path: the success path returns a bundle of exactly the three
keys and a nil error; each failure path returns a nil bundle and its own error. -/
def Ends (o : Outcome) : Path → Prop
  | .Success => ∃ m : GoMap, o = .returned (some m) none ∧ m.keys.length = 3 ∧
      ∀ k, k ∈ m.keys ↔ k = "authorization_token" ∨ k = "proxy_endpoint" ∨ k = "expires_at"
  | .MissingSpec => o = .returned none (some (.errorString "no config spec provided"))
  | .InvalidSpec => ∃ e : GoError,
      o = .returned none (some (.wrapError ("unable to parse spec: " ++ e.Error) e))
  | .AuthFailure => ∃ e : GoError,
      o = .returned none (some (.wrapError ("unable to create aws session: " ++ e.Error) e))
  | .UpstreamFailure => ∃ e : GoError,
      o = .returned none
        (some (.wrapError ("unable to get authorization token: " ++ e.Error) e))
  | .UnexpectedResponseShape => ∃ n : Nat, n ≠ 1 ∧
      o = .returned none (some (.errorString
        ("unexpected number of authorization tokens. expected 1, found " ++
          FormatInt n)))

/-- The first step that fails, in the order payload check, decode, authentication,
registry call, cardinality check; the success path when none does. -/
def firstFailure (d : Deps) (ctx : Context) (jsonSpec : Option JSON) (kube : KubeClient)
    (ns : String) : Path :=
  match jsonSpec with
  | none => .MissingSpec
  | some js =>
    if (decodeErr d js).isSome then .InvalidSpec
    else if (authResult d ctx js kube ns).2.isSome then .AuthFailure
    else if (registryResult d ctx js kube ns).2.isSome then .UpstreamFailure
    else if (registryResult d ctx js kube ns).1.AuthorizationData.length ≠ 1 then
      .UnexpectedResponseShape
    else .Success

/-- Whenever the call reaches a registry answer of a single record, that record and its
token, expiry and endpoint are present. -/
def SingleRecordComplete (d : Deps) (ctx : Context) (jsonSpec : Option JSON)
    (kube : KubeClient) (ns : String) : Prop :=
  ∀ js r, jsonSpec = some js → decodeErr d js = none →
    (authResult d ctx js kube ns).2 = none → (registryResult d ctx js kube ns).2 = none →
    (registryResult d ctx js kube ns).1.AuthorizationData = [r] →
    ∃ t x p, r = some ⟨some t, some x, some p⟩

/-! ## The collaborators of the examples -/

/-- A decoder that accepts every payload but the empty one and reads region
`us-east-1` with no role and no auth override. -/
def demoUnmarshal (data : Bytes) (spec : ECRAuthorizationToken) :
    ECRAuthorizationToken × Option GoError :=
  match data with
  | [] => (spec, some (.errorString "unexpected end of JSON input"))
  | _ :: _ => (⟨⟨"us-east-1", ⟨none, none⟩, ""⟩⟩, none)

/-- Collaborators for the examples: the session helper succeeds unless the namespace is
`denied`, and the registry answers with the given output and error. -/
def demoDeps (out : GetAuthorizationTokenOutput) (err : Option GoError) : Deps where
  Unmarshal := demoUnmarshal
  DefaultSTSProvider := ⟨1⟩
  DefaultJWTProvider := ⟨2⟩
  NewGeneratorSession := fun _ _ _ _ _ ns _ _ =>
    if ns = "denied" then (⟨0⟩, some (.errorString "AccessDenied")) else (⟨7⟩, none)
  GetAuthorizationToken := fun _ _ => (out, err)

/-- An expiry at the given Unix second, expressed in the given location. -/
def timeAt (s : GoInt64) (loc : Location) : Time := ⟨s, 0, loc⟩

/-- The authorization record of the worked example of the specification. -/
def demoRecord : AuthorizationData :=
  ⟨some "TOKEN123", some (timeAt ⟨1700000000, by decide⟩ utcLoc),
    some "https://123.dkr.ecr.us-east-1.amazonaws.com"⟩

/-! ## Evaluation on concrete inputs -/

example : Generate (demoDeps ⟨[some demoRecord]⟩ none) ⟨0⟩ (some ⟨[123, 125]⟩) ⟨0⟩ "default" =
    ⟨[.NewGeneratorSession ⟨0⟩ ⟨none, none⟩ "" "us-east-1" ⟨0⟩ "default" ⟨1⟩ ⟨2⟩,
      .GetAuthorizationToken ⟨⟨7⟩⟩ ⟨[]⟩],
     .returned (some [("authorization_token", toBytes "TOKEN123"),
       ("proxy_endpoint", toBytes "https://123.dkr.ecr.us-east-1.amazonaws.com"),
       ("expires_at", toBytes "1700000000")]) none⟩ := by
  decide

example : Generate (demoDeps ⟨[]⟩ none) ⟨0⟩ none ⟨0⟩ "default" =
    ⟨[], .returned none (some (.errorString "no config spec provided"))⟩ := by
  decide

example : Generate (demoDeps ⟨[]⟩ none) ⟨0⟩ (some ⟨[]⟩) ⟨0⟩ "default" =
    ⟨[], .returned none (some (.wrapError "unable to parse spec: unexpected end of JSON input"
      (.errorString "unexpected end of JSON input")))⟩ := by
  decide

example : (Generate (demoDeps ⟨[]⟩ none) ⟨0⟩ (some ⟨[123, 125]⟩) ⟨0⟩ "default").outcome =
    .returned none (some (.errorString
      "unexpected number of authorization tokens. expected 1, found 0")) := by
  decide

example : ParseInt "1700000000" = some 1700000000 := by decide
example : ParseInt "-9223372036854775808" = some minInt64 := by decide
example : ParseInt "9223372036854775808" = none := by decide
example : ParseInt "" = none := by decide
example : ParseInt "-" = none := by decide
example : ParseInt "12a" = none := by decide

/-! ## Formatting of errors -/

theorem expand_literal (p rest : List Char) (args : List Arg) (hp : '%' ∉ p) :
    expand (p ++ rest) args = (p ++ (expand rest args).1, (expand rest args).2) := by
  induction p with
  | nil => simp
  | cons c p ih =>
    have hc : c ≠ '%' := fun h => hp (by simp [h])
    have hp2 : '%' ∉ p := fun h => hp (by simp [h])
    rw [List.cons_append, expand]
    · rw [ih hp2]; simp
    · intro r a h hc2; exact absurd hc2 hc
    · intro r a h hc2; exact absurd hc2 hc

theorem Errorf_wrap (pfx : String) (e : GoError) (hp : '%' ∉ pfx.data) :
    Errorf (pfx ++ "%w") [.err e] = .wrapError (pfx ++ e.Error) e := by
  have h : (pfx ++ "%w").data = pfx.data ++ ['%', 'w'] := by simp
  simp [Errorf, h, expand_literal _ _ _ hp, expand]
  apply String.ext; simp

theorem Errorf_decimal (pfx : String) (n : Int) (hp : '%' ∉ pfx.data) :
    Errorf (pfx ++ "%d") [.int n] = .errorString (pfx ++ FormatInt n) := by
  have h : (pfx ++ "%d").data = pfx.data ++ ['%', 'd'] := by simp
  simp [Errorf, h, expand_literal _ _ _ hp, expand]
  apply String.ext; simp

theorem Errorf_errNoSpec : Errorf errNoSpec [] = .errorString "no config spec provided" := by
  decide

theorem Errorf_errParseSpec (e : GoError) :
    Errorf errParseSpec [.err e] = .wrapError ("unable to parse spec: " ++ e.Error) e :=
  Errorf_wrap "unable to parse spec: " e (by decide)

theorem Errorf_errCreateSess (e : GoError) :
    Errorf errCreateSess [.err e] =
      .wrapError ("unable to create aws session: " ++ e.Error) e :=
  Errorf_wrap "unable to create aws session: " e (by decide)

theorem Errorf_errGetToken (e : GoError) :
    Errorf errGetToken [.err e] =
      .wrapError ("unable to get authorization token: " ++ e.Error) e :=
  Errorf_wrap "unable to get authorization token: " e (by decide)

theorem Errorf_count (n : Int) :
    Errorf "unexpected number of authorization tokens. expected 1, found %d" [.int n] =
      .errorString ("unexpected number of authorization tokens. expected 1, found " ++
        FormatInt n) :=
  Errorf_decimal "unexpected number of authorization tokens. expected 1, found " n (by decide)

/-! ## Decimal rendering and reading back -/

theorem digitVal_digitChar {k : Nat} (hk : k < 10) : digitVal (digitChar k) = some k := by
  interval_cases k <;> decide

theorem digitChar_not_sign {k : Nat} (hk : k < 10) :
    digitChar k ≠ '-' ∧ digitChar k ≠ '+' := by
  interval_cases k <;> decide

theorem renders_digit {u : Nat} (hu : u < 10) : Renders [digitChar u] u := by
  refine ⟨by simp, ?_, ?_⟩
  · intro c hc
    exact ⟨u, hu, by simpa using hc⟩
  · intro tail acc
    simp [parseDigits, digitVal_digitChar hu]

theorem renders_snoc {ds : List Char} {u : Nat} (h : Renders ds (u / 10)) :
    Renders (ds ++ [digitChar (u % 10)]) u := by
  obtain ⟨hne, hdig, hval⟩ := h
  have hlt : u % 10 < 10 := Nat.mod_lt _ (by decide)
  refine ⟨by simp, ?_, ?_⟩
  · intro c hc
    rcases List.mem_append.mp hc with hc | hc
    · exact hdig c hc
    · exact ⟨u % 10, hlt, by simpa using hc⟩
  · intro tail acc
    rw [List.append_assoc, hval]
    simp only [List.singleton_append, parseDigits, digitVal_digitChar hlt,
      List.length_append, List.length_singleton]
    congr 1
    have := Nat.div_add_mod u 10
    rw [pow_succ]
    nlinarith [this]

theorem formatBits_renders (fuel : Nat) :
    ∀ (u : Nat) (acc : List Char), u < fuel →
      ∃ ds, formatBits fuel u acc = ds ++ acc ∧ Renders ds u := by
  induction fuel with
  | zero => intro u acc h; exact absurd h (Nat.not_lt_zero _)
  | succ fuel ih =>
    intro u acc hu
    by_cases h10 : u < 10
    · exact ⟨[digitChar u], by simp [formatBits, h10], renders_digit h10⟩
    · obtain ⟨ds, hds, hr⟩ := ih (u / 10) (digitChar (u % 10) :: acc) (by omega)
      refine ⟨ds ++ [digitChar (u % 10)], ?_, renders_snoc hr⟩
      simp [formatBits, h10, hds]

theorem formatBits_full (u : Nat) : Renders (formatBits (u + 1) u []) u := by
  obtain ⟨ds, hds, hr⟩ := formatBits_renders (u + 1) u [] (Nat.lt_succ_self u)
  rw [hds, List.append_nil]
  exact hr

theorem ParseUint_renders {ds : List Char} {u : Nat} (h : Renders ds u) :
    ParseUint ds = some u := by
  obtain ⟨hne, _, hval⟩ := h
  have h0 := hval [] 0
  simp only [List.append_nil, parseDigits, Nat.zero_mul, Nat.zero_add] at h0
  cases ds with
  | nil => exact absurd rfl hne
  | cons c cs => simpa [ParseUint] using h0

theorem FormatInt_neg {i : Int} (h : i < 0) :
    (FormatInt i).data = '-' :: formatBits ((-i).toNat + 1) (-i).toNat [] := by
  simp [FormatInt, h]

theorem FormatInt_nonneg {i : Int} (h : 0 ≤ i) :
    (FormatInt i).data = formatBits (i.toNat + 1) i.toNat [] := by
  simp [FormatInt, not_lt.mpr h]

/-- Reading back a rendered `int64` gives the number. -/
theorem ParseInt_FormatInt (i : Int) (h1 : minInt64 ≤ i) (h2 : i ≤ maxInt64) :
    ParseInt (FormatInt i) = some i := by
  unfold minInt64 at h1
  unfold maxInt64 at h2
  by_cases hneg : i < 0
  · have hr := formatBits_full (-i).toNat
    have hu := ParseUint_renders hr
    have hn : (((-i).toNat : Nat) : Int) = -i := Int.toNat_of_nonneg (by omega)
    simp only [ParseInt, FormatInt_neg hneg, decide_True, or_true, if_true, hu, maxInt64, hn]
    simp
    omega
  · have hi : 0 ≤ i := not_lt.mp hneg
    have hr := formatBits_full i.toNat
    have hu := ParseUint_renders hr
    have hn : ((i.toNat : Nat) : Int) = i := Int.toNat_of_nonneg hi
    obtain ⟨hne, hdig, _⟩ := hr
    rw [ParseInt, FormatInt_nonneg hi]
    cases hds : formatBits (i.toNat + 1) i.toNat [] with
    | nil => exact absurd hds hne
    | cons c cs =>
      rw [hds] at hu hdig
      obtain ⟨k, hk, hc⟩ := hdig c (by simp)
      have hs := digitChar_not_sign hk
      rw [← hc] at hs
      simp [hs.1, hs.2, hu, hn, maxInt64]
      omega

/-- A rendering starts with `-` exactly when the number is negative. -/
theorem FormatInt_head (i : Int) : (FormatInt i).data.head? = some '-' ↔ i < 0 := by
  by_cases hneg : i < 0
  · simp [FormatInt_neg hneg, hneg]
  · have hi : 0 ≤ i := not_lt.mp hneg
    obtain ⟨hne, hdig, _⟩ := formatBits_full i.toNat
    rw [FormatInt_nonneg hi]
    cases hds : formatBits (i.toNat + 1) i.toNat [] with
    | nil => exact absurd hds hne
    | cons c cs =>
      rw [hds] at hdig
      obtain ⟨k, hk, hc⟩ := hdig c (by simp)
      have hs := digitChar_not_sign hk
      rw [← hc] at hs
      simp [hs.1, hneg]

theorem FormatInt_ne_empty (i : Int) : (FormatInt i).data ≠ [] := by
  by_cases hneg : i < 0
  · simp [FormatInt_neg hneg]
  · rw [FormatInt_nonneg (not_lt.mp hneg)]
    exact (formatBits_full i.toNat).1

theorem Time_UnixNano_div (x : Time) : x.UnixNano / 1000000000 = x.sec.val := by
  have h := x.nsec.isLt
  unfold Time.UnixNano
  omega

/-! ## Bytes of a string -/

theorem utf8EncodeChar_ne_nil (c : Char) : String.utf8EncodeChar c ≠ [] := by
  unfold String.utf8EncodeChar
  intro h
  simp only at h
  split_ifs at h

theorem toBytes_eq_nil_iff (s : String) : toBytes s = [] ↔ s.data = [] := by
  unfold toBytes String.toUTF8
  cases hs : s.data with
  | nil => simp
  | cons c cs => simp [utf8EncodeChar_ne_nil]

theorem toBytes_ne_nil_iff (s : String) : toBytes s ≠ [] ↔ s ≠ "" := by
  rw [Ne, toBytes_eq_nil_iff, Ne, String.ext_iff]

theorem toBytes_FormatInt_ne_nil (i : Int) : toBytes (FormatInt i) ≠ [] := fun h =>
  FormatInt_ne_empty i ((toBytes_eq_nil_iff _).mp h)

/-! ## The steps of `Generate` -/

theorem Generate_none (d : Deps) (ctx : Context) (kube : KubeClient) (ns : String) :
    Generate d ctx none kube ns =
      ⟨[], .returned none (some (.errorString "no config spec provided"))⟩ := by
  simp [Generate, Errorf_errNoSpec]

theorem Generate_decode_error (d : Deps) (ctx : Context) (js : JSON) (kube : KubeClient)
    (ns : String) (e : GoError) (h : decodeErr d js = some e) :
    Generate d ctx (some js) kube ns =
      ⟨[], .returned none (some (.wrapError ("unable to parse spec: " ++ e.Error) e))⟩ := by
  simp only [decodeErr] at h
  simp [Generate, parseSpec, h, Errorf_errParseSpec]

theorem Generate_auth_error (d : Deps) (ctx : Context) (js : JSON) (kube : KubeClient)
    (ns : String) (e : GoError) (h1 : decodeErr d js = none)
    (h2 : (authResult d ctx js kube ns).2 = some e) :
    Generate d ctx (some js) kube ns =
      ⟨[authCall d ctx js kube ns],
        .returned none (some (.wrapError ("unable to create aws session: " ++ e.Error) e))⟩ := by
  simp only [decodeErr] at h1
  simp only [authResult, decoded] at h2
  simp [Generate, parseSpec, h1, h2, Errorf_errCreateSess, authCall, decoded]

theorem Generate_registry_error (d : Deps) (ctx : Context) (js : JSON) (kube : KubeClient)
    (ns : String) (e : GoError) (h1 : decodeErr d js = none)
    (h2 : (authResult d ctx js kube ns).2 = none)
    (h3 : (registryResult d ctx js kube ns).2 = some e) :
    Generate d ctx (some js) kube ns =
      ⟨[authCall d ctx js kube ns, registryCall d ctx js kube ns],
        .returned none
          (some (.wrapError ("unable to get authorization token: " ++ e.Error) e))⟩ := by
  simp only [decodeErr] at h1
  simp only [registryResult, authResult, decoded] at h2 h3
  simp [Generate, parseSpec, h1, h2, h3, Errorf_errGetToken, authCall, registryCall,
    authResult, decoded]

theorem Generate_count_error (d : Deps) (ctx : Context) (js : JSON) (kube : KubeClient)
    (ns : String) (h1 : decodeErr d js = none)
    (h2 : (authResult d ctx js kube ns).2 = none)
    (h3 : (registryResult d ctx js kube ns).2 = none)
    (h4 : (registryResult d ctx js kube ns).1.AuthorizationData.length ≠ 1) :
    Generate d ctx (some js) kube ns =
      ⟨[authCall d ctx js kube ns, registryCall d ctx js kube ns],
        .returned none (some (.errorString
          ("unexpected number of authorization tokens. expected 1, found " ++
            FormatInt (registryResult d ctx js kube ns).1.AuthorizationData.length)))⟩ := by
  simp only [decodeErr] at h1
  simp only [registryResult, authResult, decoded] at h2 h3 h4
  simp [Generate, parseSpec, h1, h2, h3, h4, Errorf_count, authCall, registryCall,
    authResult, registryResult, decoded]

theorem Generate_single (d : Deps) (ctx : Context) (js : JSON) (kube : KubeClient)
    (ns : String) (r : Option AuthorizationData) (h1 : decodeErr d js = none)
    (h2 : (authResult d ctx js kube ns).2 = none)
    (h3 : (registryResult d ctx js kube ns).2 = none)
    (h4 : (registryResult d ctx js kube ns).1.AuthorizationData = [r]) :
    Generate d ctx (some js) kube ns =
      ⟨[authCall d ctx js kube ns, registryCall d ctx js kube ns], assemble r⟩ := by
  simp only [decodeErr] at h1
  simp only [registryResult, authResult, decoded] at h2 h3 h4
  simp only [Generate, parseSpec, h1, h2, h3, h4, authCall, registryCall,
    authResult, decoded]
  rcases r with _ | ⟨_ | t, _ | x, _ | p⟩ <;> simp [assemble, bundleOf]

/-- A successful return comes from exactly one situation: a payload was given, the
decoder, the authentication delegate and the registry delegate reported no error, and
the registry answered with a single record whose three fields are present. -/
theorem Generate_bundle_inv (d : Deps) (ctx : Context) (jsonSpec : Option JSON)
    (kube : KubeClient) (ns : String) (m : GoMap)
    (h : (Generate d ctx jsonSpec kube ns).outcome = .returned (some m) none) :
    ∃ js t x p, jsonSpec = some js ∧ decodeErr d js = none ∧
      (authResult d ctx js kube ns).2 = none ∧ (registryResult d ctx js kube ns).2 = none ∧
      (registryResult d ctx js kube ns).1.AuthorizationData = [some ⟨some t, some x, some p⟩] ∧
      m = bundleOf t p x := by
  cases jsonSpec with
  | none => rw [Generate_none] at h; simp at h
  | some js =>
    cases h1 : decodeErr d js with
    | some e => rw [Generate_decode_error d ctx js kube ns e h1] at h; simp at h
    | none =>
      cases h2 : (authResult d ctx js kube ns).2 with
      | some e => rw [Generate_auth_error d ctx js kube ns e h1 h2] at h; simp at h
      | none =>
        cases h3 : (registryResult d ctx js kube ns).2 with
        | some e => rw [Generate_registry_error d ctx js kube ns e h1 h2 h3] at h; simp at h
        | none =>
          by_cases h4 : (registryResult d ctx js kube ns).1.AuthorizationData.length = 1
          · obtain ⟨r, hr⟩ := List.length_eq_one.mp h4
            rw [Generate_single d ctx js kube ns r h1 h2 h3 hr] at h
            rcases r with _ | ⟨_ | t, _ | x, _ | p⟩ <;> simp [assemble] at h
            exact ⟨js, t, x, p, rfl, h1, h2, h3, hr, h.symm⟩
          · rw [Generate_count_error d ctx js kube ns h1 h2 h3 h4] at h; simp at h

/-! ## The outcomes of the six paths -/

theorem message_parse_ne_session (a b : String) :
    "unable to parse spec: " ++ a ≠ "unable to create aws session: " ++ b := by
  intro h
  have h2 := congrArg String.data h
  simp at h2

theorem message_parse_ne_token (a b : String) :
    "unable to parse spec: " ++ a ≠ "unable to get authorization token: " ++ b := by
  intro h
  have h2 := congrArg String.data h
  simp at h2

theorem message_session_ne_token (a b : String) :
    "unable to create aws session: " ++ a ≠ "unable to get authorization token: " ++ b := by
  intro h
  have h2 := congrArg String.data h
  simp at h2

theorem message_count_ne_missing (a : String) :
    "unexpected number of authorization tokens. expected 1, found " ++ a ≠
      "no config spec provided" := by
  intro h
  have h2 := congrArg String.data h
  simp at h2

theorem Ends_missing (q : Path) :
    Ends (.returned none (some (.errorString "no config spec provided"))) q ↔
      q = .MissingSpec := by
  cases q <;> simp [Ends]
  intro n _ h
  exact message_count_ne_missing _ h.symm

theorem Ends_invalid (e : GoError) (q : Path) :
    Ends (.returned none (some (.wrapError ("unable to parse spec: " ++ e.Error) e))) q ↔
      q = .InvalidSpec := by
  cases q <;> simp [Ends]
  · exact message_parse_ne_session _ _
  · exact message_parse_ne_token _ _

theorem Ends_auth (e : GoError) (q : Path) :
    Ends (.returned none
        (some (.wrapError ("unable to create aws session: " ++ e.Error) e))) q ↔
      q = .AuthFailure := by
  cases q <;> simp [Ends]
  · exact (message_parse_ne_session _ _).symm
  · exact message_session_ne_token _ _

theorem Ends_upstream (e : GoError) (q : Path) :
    Ends (.returned none
        (some (.wrapError ("unable to get authorization token: " ++ e.Error) e))) q ↔
      q = .UpstreamFailure := by
  cases q <;> simp [Ends]
  · exact (message_parse_ne_token _ _).symm
  · exact (message_session_ne_token _ _).symm

theorem Ends_count (n : Nat) (hn : n ≠ 1) (q : Path) :
    Ends (.returned none (some (.errorString
        ("unexpected number of authorization tokens. expected 1, found " ++
          FormatInt n)))) q ↔
      q = .UnexpectedResponseShape := by
  cases q <;> simp [Ends]
  · exact message_count_ne_missing _
  · exact ⟨n, hn, rfl⟩

theorem Ends_success (t p : String) (x : Time) (q : Path) :
    Ends (.returned (some (bundleOf t p x)) none) q ↔ q = .Success := by
  cases q
  case Success =>
    refine iff_of_true ⟨_, rfl, rfl, ?_⟩ rfl
    intro k
    simp [GoMap.keys, bundleOf]
  all_goals simp [Ends]

theorem Ends_panicked (msg : String) (q : Path) : ¬ Ends (.panicked msg) q := by
  cases q <;> simp [Ends]

/-! ## The claims -/

/-- C1: for every context, kube client and namespace, `Generate` called with an absent
payload returns no bundle and the error whose message is exactly
`no config spec provided` and which wraps nothing, and it calls neither delegate. -/
theorem Generate_missing_spec (d : Deps) (ctx : Context) (kube : KubeClient) (ns : String) :
    ∃ err, (Generate d ctx none kube ns).outcome = .returned none (some err) ∧
      err.Error = "no config spec provided" ∧ err.Unwrap = none ∧
      (Generate d ctx none kube ns).calls = [] := by
  rw [Generate_none]
  exact ⟨_, rfl, rfl, rfl, rfl⟩

/-- C2: for every present payload on which the decoder reports an error `e` (whatever
the bytes, the empty sequence included), `Generate` returns no bundle and an error whose
message is `unable to parse spec: ` followed by the message of `e` and which wraps `e`
itself, and it calls neither delegate. -/
theorem Generate_invalid_spec (d : Deps) (ctx : Context) (js : JSON) (kube : KubeClient)
    (ns : String) (e : GoError)
    (h : (d.Unmarshal js.Raw ECRAuthorizationToken.zero).2 = some e) :
    ∃ err, (Generate d ctx (some js) kube ns).outcome = .returned none (some err) ∧
      err.Error = "unable to parse spec: " ++ e.Error ∧ err.Unwrap = some e ∧
      (Generate d ctx (some js) kube ns).calls = [] := by
  rw [Generate_decode_error d ctx js kube ns e h]
  exact ⟨_, rfl, rfl, rfl, rfl⟩

/-- C2 at the empty byte sequence, which the decoder of the examples rejects. -/
theorem Generate_invalid_spec_witness :
    ((demoDeps ⟨[]⟩ none).Unmarshal (JSON.mk []).Raw ECRAuthorizationToken.zero).2 =
        some (.errorString "unexpected end of JSON input") ∧
      ∃ err, (Generate (demoDeps ⟨[]⟩ none) ⟨0⟩ (some ⟨[]⟩) ⟨0⟩ "default").outcome =
          .returned none (some err) ∧
        err.Error = "unable to parse spec: " ++
          (GoError.errorString "unexpected end of JSON input").Error ∧
        err.Unwrap = some (.errorString "unexpected end of JSON input") ∧
        (Generate (demoDeps ⟨[]⟩ none) ⟨0⟩ (some ⟨[]⟩) ⟨0⟩ "default").calls = [] :=
  ⟨by decide, Generate_invalid_spec (demoDeps ⟨[]⟩ none) ⟨0⟩ ⟨[]⟩ ⟨0⟩ "default" _ (by decide)⟩

/-- C3: for every payload the decoder accepts, if the authentication delegate, called
with the context, the decoded auth, role and region, the kube client, the namespace and
the default STS and JWT providers, reports an error `e`, then `Generate` returns no
bundle and an error whose message is `unable to create aws session: ` followed by the
message of `e` and which wraps `e`; that call is the only one issued, so the registry
delegate is never called. -/
theorem Generate_auth_failure (d : Deps) (ctx : Context) (js : JSON) (kube : KubeClient)
    (ns : String) (res : ECRAuthorizationToken) (e : GoError)
    (h1 : d.Unmarshal js.Raw ECRAuthorizationToken.zero = (res, none))
    (h2 : (d.NewGeneratorSession ctx res.Spec.Auth res.Spec.Role res.Spec.Region kube ns
      d.DefaultSTSProvider d.DefaultJWTProvider).2 = some e) :
    ∃ err, (Generate d ctx (some js) kube ns).outcome = .returned none (some err) ∧
      err.Error = "unable to create aws session: " ++ e.Error ∧ err.Unwrap = some e ∧
      (Generate d ctx (some js) kube ns).calls =
        [.NewGeneratorSession ctx res.Spec.Auth res.Spec.Role res.Spec.Region kube ns
          d.DefaultSTSProvider d.DefaultJWTProvider] ∧
      ∀ c ∈ (Generate d ctx (some js) kube ns).calls, c.isRegistry = false := by
  have hd : decoded d js = res := by simp [decoded, h1]
  have he : decodeErr d js = none := by simp [decodeErr, h1]
  have ha : (authResult d ctx js kube ns).2 = some e := by simpa [authResult, hd] using h2
  rw [Generate_auth_error d ctx js kube ns e he ha]
  refine ⟨_, rfl, rfl, rfl, by simp [authCall, hd], ?_⟩
  intro c hc
  simp only [List.mem_singleton] at hc
  rw [hc]
  rfl

/-- C3 with the namespace `denied`, which the session helper of the examples refuses. -/
theorem Generate_auth_failure_witness :
    ((demoDeps ⟨[]⟩ none).Unmarshal (JSON.mk [123, 125]).Raw ECRAuthorizationToken.zero =
        (⟨⟨"us-east-1", ⟨none, none⟩, ""⟩⟩, none) ∧
      ((demoDeps ⟨[]⟩ none).NewGeneratorSession ⟨0⟩ ⟨none, none⟩ "" "us-east-1" ⟨0⟩ "denied"
        (demoDeps ⟨[]⟩ none).DefaultSTSProvider (demoDeps ⟨[]⟩ none).DefaultJWTProvider).2 =
        some (.errorString "AccessDenied")) ∧
      ∃ err, (Generate (demoDeps ⟨[]⟩ none) ⟨0⟩ (some ⟨[123, 125]⟩) ⟨0⟩ "denied").outcome =
          .returned none (some err) ∧
        err.Error = "unable to create aws session: " ++
          (GoError.errorString "AccessDenied").Error ∧
        err.Unwrap = some (.errorString "AccessDenied") ∧
        (Generate (demoDeps ⟨[]⟩ none) ⟨0⟩ (some ⟨[123, 125]⟩) ⟨0⟩ "denied").calls =
          [.NewGeneratorSession ⟨0⟩ ⟨none, none⟩ "" "us-east-1" ⟨0⟩ "denied"
            (demoDeps ⟨[]⟩ none).DefaultSTSProvider (demoDeps ⟨[]⟩ none).DefaultJWTProvider] ∧
        ∀ c ∈ (Generate (demoDeps ⟨[]⟩ none) ⟨0⟩ (some ⟨[123, 125]⟩) ⟨0⟩ "denied").calls,
          c.isRegistry = false :=
  ⟨⟨by decide, by decide⟩,
    Generate_auth_failure (demoDeps ⟨[]⟩ none) ⟨0⟩ ⟨[123, 125]⟩ ⟨0⟩ "denied"
      ⟨⟨"us-east-1", ⟨none, none⟩, ""⟩⟩ (.errorString "AccessDenied") (by decide) (by decide)⟩

/-- C4: for every payload the decoder accepts and every successful authentication, if
the registry delegate reports an error `e`, then `Generate` returns no bundle and an
error whose message is `unable to get authorization token: ` followed by the message of
`e` and which wraps `e`, after calling the authentication delegate once and then the
registry delegate exactly once. -/
theorem Generate_upstream_failure (d : Deps) (ctx : Context) (js : JSON)
    (kube : KubeClient) (ns : String) (res : ECRAuthorizationToken) (sess : Session)
    (e : GoError)
    (h1 : d.Unmarshal js.Raw ECRAuthorizationToken.zero = (res, none))
    (h2 : d.NewGeneratorSession ctx res.Spec.Auth res.Spec.Role res.Spec.Region kube ns
      d.DefaultSTSProvider d.DefaultJWTProvider = (sess, none))
    (h3 : (d.GetAuthorizationToken (ecrNew sess) ⟨[]⟩).2 = some e) :
    ∃ err, (Generate d ctx (some js) kube ns).outcome = .returned none (some err) ∧
      err.Error = "unable to get authorization token: " ++ e.Error ∧
      err.Unwrap = some e ∧
      (Generate d ctx (some js) kube ns).calls =
        [.NewGeneratorSession ctx res.Spec.Auth res.Spec.Role res.Spec.Region kube ns
          d.DefaultSTSProvider d.DefaultJWTProvider,
         .GetAuthorizationToken (ecrNew sess) ⟨[]⟩] ∧
      ((Generate d ctx (some js) kube ns).calls.filter Call.isRegistry).length = 1 := by
  have hd : decoded d js = res := by simp [decoded, h1]
  have he : decodeErr d js = none := by simp [decodeErr, h1]
  have ha : authResult d ctx js kube ns = (sess, none) := by simpa [authResult, hd] using h2
  have ha2 : (authResult d ctx js kube ns).2 = none := by rw [ha]
  have hr : (registryResult d ctx js kube ns).2 = some e := by
    simpa [registryResult, ha] using h3
  rw [Generate_registry_error d ctx js kube ns e he ha2 hr]
  refine ⟨_, rfl, rfl, rfl, by simp [authCall, registryCall, hd, ha], ?_⟩
  simp [authCall, registryCall, Call.isRegistry]

/-- C4 with a registry that answers `ThrottlingException`. -/
theorem Generate_upstream_failure_witness :
    ((demoDeps ⟨[]⟩ (some (.errorString "ThrottlingException"))).Unmarshal
          (JSON.mk [123, 125]).Raw ECRAuthorizationToken.zero =
        (⟨⟨"us-east-1", ⟨none, none⟩, ""⟩⟩, none) ∧
      (demoDeps ⟨[]⟩ (some (.errorString "ThrottlingException"))).NewGeneratorSession ⟨0⟩
          ⟨none, none⟩ "" "us-east-1" ⟨0⟩ "default" ⟨1⟩ ⟨2⟩ = (⟨7⟩, none) ∧
      ((demoDeps ⟨[]⟩ (some (.errorString "ThrottlingException"))).GetAuthorizationToken
          (ecrNew ⟨7⟩) ⟨[]⟩).2 = some (.errorString "ThrottlingException")) ∧
      ∃ err, (Generate (demoDeps ⟨[]⟩ (some (.errorString "ThrottlingException"))) ⟨0⟩
            (some ⟨[123, 125]⟩) ⟨0⟩ "default").outcome = .returned none (some err) ∧
        err.Error = "unable to get authorization token: " ++
          (GoError.errorString "ThrottlingException").Error ∧
        err.Unwrap = some (.errorString "ThrottlingException") ∧
        (Generate (demoDeps ⟨[]⟩ (some (.errorString "ThrottlingException"))) ⟨0⟩
            (some ⟨[123, 125]⟩) ⟨0⟩ "default").calls =
          [.NewGeneratorSession ⟨0⟩ ⟨none, none⟩ "" "us-east-1" ⟨0⟩ "default" ⟨1⟩ ⟨2⟩,
           .GetAuthorizationToken (ecrNew ⟨7⟩) ⟨[]⟩] ∧
        ((Generate (demoDeps ⟨[]⟩ (some (.errorString "ThrottlingException"))) ⟨0⟩
            (some ⟨[123, 125]⟩) ⟨0⟩ "default").calls.filter Call.isRegistry).length = 1 :=
  ⟨⟨by decide, by decide, by decide⟩,
    Generate_upstream_failure (demoDeps ⟨[]⟩ (some (.errorString "ThrottlingException")))
      ⟨0⟩ ⟨[123, 125]⟩ ⟨0⟩ "default" ⟨⟨"us-east-1", ⟨none, none⟩, ""⟩⟩ ⟨7⟩
      (.errorString "ThrottlingException") (by decide) (by decide) (by decide)⟩

/-- C5: when the decoder, the authentication delegate and the registry delegate report
no error and the registry answers with `n` records, `n ≠ 1`, then whatever the records
hold (absent records and absent fields included) `Generate` returns no bundle and the
plain error whose message is `unexpected number of authorization tokens. expected 1,
found ` followed by `n` in decimal. -/
theorem Generate_unexpected_count (d : Deps) (ctx : Context) (js : JSON)
    (kube : KubeClient) (ns : String) (res : ECRAuthorizationToken) (sess : Session)
    (out : GetAuthorizationTokenOutput)
    (h1 : d.Unmarshal js.Raw ECRAuthorizationToken.zero = (res, none))
    (h2 : d.NewGeneratorSession ctx res.Spec.Auth res.Spec.Role res.Spec.Region kube ns
      d.DefaultSTSProvider d.DefaultJWTProvider = (sess, none))
    (h3 : d.GetAuthorizationToken (ecrNew sess) ⟨[]⟩ = (out, none))
    (h4 : out.AuthorizationData.length ≠ 1) :
    ∃ err digits, (Generate d ctx (some js) kube ns).outcome = .returned none (some err) ∧
      err.Error =
        "unexpected number of authorization tokens. expected 1, found " ++ digits ∧
      Renders digits.data out.AuthorizationData.length ∧
      ParseUint digits.data = some out.AuthorizationData.length ∧
      err.Unwrap = none := by
  have hd : decoded d js = res := by simp [decoded, h1]
  have he : decodeErr d js = none := by simp [decodeErr, h1]
  have ha : authResult d ctx js kube ns = (sess, none) := by simpa [authResult, hd] using h2
  have ha2 : (authResult d ctx js kube ns).2 = none := by rw [ha]
  have hr : registryResult d ctx js kube ns = (out, none) := by
    simpa [registryResult, ha] using h3
  have hr2 : (registryResult d ctx js kube ns).2 = none := by rw [hr]
  have hn : (registryResult d ctx js kube ns).1.AuthorizationData.length ≠ 1 := by
    rw [hr]; exact h4
  rw [Generate_count_error d ctx js kube ns he ha2 hr2 hn, hr]
  have hren : Renders (FormatInt (out.AuthorizationData.length : Int)).data
      out.AuthorizationData.length := by
    rw [FormatInt_nonneg (Int.natCast_nonneg _)]
    simpa using formatBits_full out.AuthorizationData.length
  exact ⟨_, FormatInt (out.AuthorizationData.length : Int), rfl, rfl, hren,
    ParseUint_renders hren, rfl⟩

/-- C5 with an answer of two records, one absent and one with no field set. -/
theorem Generate_unexpected_count_witness :
    ((demoDeps ⟨[none, some ⟨none, none, none⟩]⟩ none).Unmarshal
          (JSON.mk [123, 125]).Raw ECRAuthorizationToken.zero =
        (⟨⟨"us-east-1", ⟨none, none⟩, ""⟩⟩, none) ∧
      (demoDeps ⟨[none, some ⟨none, none, none⟩]⟩ none).NewGeneratorSession ⟨0⟩
          ⟨none, none⟩ "" "us-east-1" ⟨0⟩ "default" ⟨1⟩ ⟨2⟩ = (⟨7⟩, none) ∧
      (demoDeps ⟨[none, some ⟨none, none, none⟩]⟩ none).GetAuthorizationToken
          (ecrNew ⟨7⟩) ⟨[]⟩ = (⟨[none, some ⟨none, none, none⟩]⟩, none) ∧
      (GetAuthorizationTokenOutput.mk
        [none, some ⟨none, none, none⟩]).AuthorizationData.length ≠ 1) ∧
      ∃ err digits, (Generate (demoDeps ⟨[none, some ⟨none, none, none⟩]⟩ none) ⟨0⟩
            (some ⟨[123, 125]⟩) ⟨0⟩ "default").outcome = .returned none (some err) ∧
        err.Error =
          "unexpected number of authorization tokens. expected 1, found " ++ digits ∧
        Renders digits.data (GetAuthorizationTokenOutput.mk
          [none, some ⟨none, none, none⟩]).AuthorizationData.length ∧
        ParseUint digits.data = some (GetAuthorizationTokenOutput.mk
          [none, some ⟨none, none, none⟩]).AuthorizationData.length ∧
        err.Unwrap = none :=
  ⟨⟨by decide, by decide, rfl, by decide⟩,
    Generate_unexpected_count (demoDeps ⟨[none, some ⟨none, none, none⟩]⟩ none) ⟨0⟩
      ⟨[123, 125]⟩ ⟨0⟩ "default" ⟨⟨"us-east-1", ⟨none, none⟩, ""⟩⟩ ⟨7⟩
      ⟨[none, some ⟨none, none, none⟩]⟩ (by decide) (by decide) rfl (by decide)⟩

/-- C6: when the decoder, the authentication delegate and the registry delegate report
no error and the registry answers with exactly one record, of token `t`, endpoint `p`
and expiry `x`, then `Generate` returns a nil error and the map of exactly the three
keys `authorization_token`, `proxy_endpoint` and `expires_at`, bound to the bytes of
`t`, the bytes of `p` and the bytes of the decimal rendering of the Unix seconds of `x`.
The map is given by `t`, `p` and `x` alone, whatever the decoded region, role and auth
override and whatever the namespace. -/
theorem Generate_success (d : Deps) (ctx : Context) (js : JSON) (kube : KubeClient)
    (ns : String) (res : ECRAuthorizationToken) (sess : Session) (t p : String) (x : Time)
    (h1 : d.Unmarshal js.Raw ECRAuthorizationToken.zero = (res, none))
    (h2 : d.NewGeneratorSession ctx res.Spec.Auth res.Spec.Role res.Spec.Region kube ns
      d.DefaultSTSProvider d.DefaultJWTProvider = (sess, none))
    (h3 : d.GetAuthorizationToken (ecrNew sess) ⟨[]⟩ =
      (⟨[some ⟨some t, some x, some p⟩]⟩, none)) :
    (Generate d ctx (some js) kube ns).outcome =
        .returned (some [("authorization_token", toBytes t), ("proxy_endpoint", toBytes p),
          ("expires_at", toBytes (FormatInt x.Unix))]) none ∧
      ∃ m, (Generate d ctx (some js) kube ns).outcome = .returned (some m) none ∧
        (∀ k, k ∈ m.keys ↔
          k = "authorization_token" ∨ k = "proxy_endpoint" ∨ k = "expires_at") ∧
        m.keys.length = 3 ∧
        m.get "authorization_token" = some (toBytes t) ∧
        m.get "proxy_endpoint" = some (toBytes p) ∧
        m.get "expires_at" = some (toBytes (FormatInt x.Unix)) := by
  have hd : decoded d js = res := by simp [decoded, h1]
  have he : decodeErr d js = none := by simp [decodeErr, h1]
  have ha : authResult d ctx js kube ns = (sess, none) := by simpa [authResult, hd] using h2
  have ha2 : (authResult d ctx js kube ns).2 = none := by rw [ha]
  have hr : registryResult d ctx js kube ns = (⟨[some ⟨some t, some x, some p⟩]⟩, none) := by
    simpa [registryResult, ha] using h3
  have hr2 : (registryResult d ctx js kube ns).2 = none := by rw [hr]
  have hr1 : (registryResult d ctx js kube ns).1.AuthorizationData =
      [some ⟨some t, some x, some p⟩] := by rw [hr]
  rw [Generate_single d ctx js kube ns _ he ha2 hr2 hr1]
  refine ⟨rfl, bundleOf t p x, rfl, ?_, rfl, ?_, ?_, ?_⟩
  · intro k
    simp [GoMap.keys, bundleOf]
  · simp [GoMap.get, bundleOf, List.lookup]
  · simp [GoMap.get, bundleOf, List.lookup]
  · simp [GoMap.get, bundleOf, List.lookup, Time.UTC, Time.Unix]

/-- C6 on the worked example: region `us-east-1`, no role, token `TOKEN123`, endpoint
`https://123.dkr.ecr.us-east-1.amazonaws.com`, expiry at Unix second 1700000000, which
is rendered as `1700000000`. -/
theorem Generate_success_witness :
    ((demoDeps ⟨[some demoRecord]⟩ none).Unmarshal (JSON.mk [123, 125]).Raw
          ECRAuthorizationToken.zero = (⟨⟨"us-east-1", ⟨none, none⟩, ""⟩⟩, none) ∧
      (demoDeps ⟨[some demoRecord]⟩ none).NewGeneratorSession ⟨0⟩
          ⟨none, none⟩ "" "us-east-1" ⟨0⟩ "default" ⟨1⟩ ⟨2⟩ = (⟨7⟩, none) ∧
      (demoDeps ⟨[some demoRecord]⟩ none).GetAuthorizationToken (ecrNew ⟨7⟩) ⟨[]⟩ =
        (⟨[some ⟨some "TOKEN123", some (timeAt ⟨1700000000, by decide⟩ utcLoc),
          some "https://123.dkr.ecr.us-east-1.amazonaws.com"⟩]⟩, none)) ∧
      FormatInt (timeAt ⟨1700000000, by decide⟩ utcLoc).Unix = "1700000000" ∧
      ((Generate (demoDeps ⟨[some demoRecord]⟩ none) ⟨0⟩ (some ⟨[123, 125]⟩) ⟨0⟩
            "default").outcome =
          .returned (some [("authorization_token", toBytes "TOKEN123"),
            ("proxy_endpoint", toBytes "https://123.dkr.ecr.us-east-1.amazonaws.com"),
            ("expires_at",
              toBytes (FormatInt (timeAt ⟨1700000000, by decide⟩ utcLoc).Unix))]) none ∧
        ∃ m, (Generate (demoDeps ⟨[some demoRecord]⟩ none) ⟨0⟩ (some ⟨[123, 125]⟩) ⟨0⟩
              "default").outcome = .returned (some m) none ∧
          (∀ k, k ∈ m.keys ↔
            k = "authorization_token" ∨ k = "proxy_endpoint" ∨ k = "expires_at") ∧
          m.keys.length = 3 ∧
          m.get "authorization_token" = some (toBytes "TOKEN123") ∧
          m.get "proxy_endpoint" =
            some (toBytes "https://123.dkr.ecr.us-east-1.amazonaws.com") ∧
          m.get "expires_at" =
            some (toBytes (FormatInt (timeAt ⟨1700000000, by decide⟩ utcLoc).Unix))) :=
  ⟨⟨by decide, by decide, rfl⟩, by decide,
    Generate_success (demoDeps ⟨[some demoRecord]⟩ none) ⟨0⟩ ⟨[123, 125]⟩ ⟨0⟩ "default"
      ⟨⟨"us-east-1", ⟨none, none⟩, ""⟩⟩ ⟨7⟩ "TOKEN123"
      "https://123.dkr.ecr.us-east-1.amazonaws.com" (timeAt ⟨1700000000, by decide⟩ utcLoc)
      (by decide) (by decide) rfl⟩

/-- C7: on every successful call the value of `expires_at` is the bytes of a decimal
string which `strconv.ParseInt(s, 10, 64)` reads back as the whole seconds between the
Unix epoch and the expiry of the registry's record (the instant in nanoseconds divided
by 10^9, rounded down); the string starts with `-` exactly when the expiry is before
the epoch, and every timestamp of the same instant, in whatever location, gives the
same value. -/
theorem Generate_expires_at (d : Deps) (ctx : Context) (jsonSpec : Option JSON)
    (kube : KubeClient) (ns : String) (m : GoMap)
    (h : (Generate d ctx jsonSpec kube ns).outcome = .returned (some m) none) :
    ∃ js t x p s, jsonSpec = some js ∧
      (registryResult d ctx js kube ns).1.AuthorizationData =
        [some ⟨some t, some x, some p⟩] ∧
      s = FormatInt (x.UnixNano / 1000000000) ∧
      m.get "expires_at" = some (toBytes s) ∧
      ParseInt s = some (x.UnixNano / 1000000000) ∧
      (s.data.head? = some '-' ↔ x.UnixNano < 0) ∧
      ∀ y : Time, y.UnixNano = x.UnixNano → toBytes (FormatInt y.UTC.Unix) = toBytes s := by
  obtain ⟨js, t, x, p, hjs, _, _, _, hrec, hm⟩ :=
    Generate_bundle_inv d ctx jsonSpec kube ns m h
  have hx := Time_UnixNano_div x
  refine ⟨js, t, x, p, FormatInt x.UTC.Unix, hjs, hrec, ?_, ?_, ?_, ?_, ?_⟩
  · rw [hx]; rfl
  · rw [hm]; simp [GoMap.get, bundleOf, List.lookup]
  · rw [hx]
    exact ParseInt_FormatInt x.sec.val x.sec.property.1 x.sec.property.2
  · rw [show x.UTC.Unix = x.sec.val from rfl, FormatInt_head]
    have hn := x.nsec.isLt
    unfold Time.UnixNano
    omega
  · intro y hy
    have hy2 := Time_UnixNano_div y
    rw [hy, hx] at hy2
    rw [show y.UTC.Unix = y.sec.val from rfl, show x.UTC.Unix = x.sec.val from rfl, hy2]

/-- C7 on an expiry half a second before the epoch, expressed in a location other than
UTC: the value is `-1`. -/
theorem Generate_expires_at_witness :
    (Generate (demoDeps ⟨[some ⟨some "TOKEN123",
          some ⟨⟨-1, by decide⟩, 500000000, ⟨"Europe/Paris"⟩⟩,
          some "https://123.dkr.ecr.us-east-1.amazonaws.com"⟩]⟩ none) ⟨0⟩
        (some ⟨[123, 125]⟩) ⟨0⟩ "default").outcome =
      .returned (some [("authorization_token", toBytes "TOKEN123"),
        ("proxy_endpoint", toBytes "https://123.dkr.ecr.us-east-1.amazonaws.com"),
        ("expires_at", toBytes "-1")]) none ∧
    ∃ js t x p s, some (JSON.mk [123, 125]) = some js ∧
      (registryResult (demoDeps ⟨[some ⟨some "TOKEN123",
          some ⟨⟨-1, by decide⟩, 500000000, ⟨"Europe/Paris"⟩⟩,
          some "https://123.dkr.ecr.us-east-1.amazonaws.com"⟩]⟩ none) ⟨0⟩ js ⟨0⟩
        "default").1.AuthorizationData = [some ⟨some t, some x, some p⟩] ∧
      s = FormatInt (x.UnixNano / 1000000000) ∧
      GoMap.get [("authorization_token", toBytes "TOKEN123"),
        ("proxy_endpoint", toBytes "https://123.dkr.ecr.us-east-1.amazonaws.com"),
        ("expires_at", toBytes "-1")] "expires_at" = some (toBytes s) ∧
      ParseInt s = some (x.UnixNano / 1000000000) ∧
      (s.data.head? = some '-' ↔ x.UnixNano < 0) ∧
      ∀ y : Time, y.UnixNano = x.UnixNano → toBytes (FormatInt y.UTC.Unix) = toBytes s :=
  ⟨by decide,
    Generate_expires_at (demoDeps ⟨[some ⟨some "TOKEN123",
          some ⟨⟨-1, by decide⟩, 500000000, ⟨"Europe/Paris"⟩⟩,
          some "https://123.dkr.ecr.us-east-1.amazonaws.com"⟩]⟩ none) ⟨0⟩
      (some ⟨[123, 125]⟩) ⟨0⟩ "default" _ (by decide)⟩

/-- C8, counterexample: the registry answers with a single record whose token is the
empty string; `Generate` succeeds and the value of `authorization_token` is empty. -/
theorem Generate_empty_token_value :
    (Generate (demoDeps ⟨[some ⟨some "", some (timeAt ⟨1700000000, by decide⟩ utcLoc),
          some "https://123.dkr.ecr.us-east-1.amazonaws.com"⟩]⟩ none) ⟨0⟩
        (some ⟨[123, 125]⟩) ⟨0⟩ "default").outcome =
      .returned (some [("authorization_token", []),
        ("proxy_endpoint", toBytes "https://123.dkr.ecr.us-east-1.amazonaws.com"),
        ("expires_at", toBytes "1700000000")]) none ∧
    GoMap.get [("authorization_token", []),
        ("proxy_endpoint", toBytes "https://123.dkr.ecr.us-east-1.amazonaws.com"),
        ("expires_at", toBytes "1700000000")] "authorization_token" = some [] := by
  decide

/-- C8, amended: every bundle `Generate` returns successfully has exactly the three keys
`authorization_token`, `proxy_endpoint` and `expires_at`; the value of `expires_at` is
never empty, and the values of `authorization_token` and `proxy_endpoint` are the bytes
of the token and the endpoint of the registry's record, non-empty exactly when that
token, respectively that endpoint, is not the empty string. -/
theorem Generate_bundle_shape (d : Deps) (ctx : Context) (jsonSpec : Option JSON)
    (kube : KubeClient) (ns : String) (m : GoMap)
    (h : (Generate d ctx jsonSpec kube ns).outcome = .returned (some m) none) :
    ∃ js t x p, jsonSpec = some js ∧
      (registryResult d ctx js kube ns).1.AuthorizationData =
        [some ⟨some t, some x, some p⟩] ∧
      (∀ k, k ∈ m.keys ↔
        k = "authorization_token" ∨ k = "proxy_endpoint" ∨ k = "expires_at") ∧
      m.keys.length = 3 ∧
      (∃ v, m.get "expires_at" = some v ∧ v ≠ []) ∧
      m.get "authorization_token" = some (toBytes t) ∧ (toBytes t ≠ [] ↔ t ≠ "") ∧
      m.get "proxy_endpoint" = some (toBytes p) ∧ (toBytes p ≠ [] ↔ p ≠ "") := by
  obtain ⟨js, t, x, p, hjs, _, _, _, hrec, hm⟩ :=
    Generate_bundle_inv d ctx jsonSpec kube ns m h
  refine ⟨js, t, x, p, hjs, hrec, ?_, ?_, ?_, ?_, toBytes_ne_nil_iff t, ?_,
    toBytes_ne_nil_iff p⟩
  · intro k
    rw [hm]; simp [GoMap.keys, bundleOf]
  · rw [hm]; rfl
  · refine ⟨toBytes (FormatInt x.UTC.Unix), ?_, toBytes_FormatInt_ne_nil _⟩
    rw [hm]; simp [GoMap.get, bundleOf, List.lookup]
  · rw [hm]; simp [GoMap.get, bundleOf, List.lookup]
  · rw [hm]; simp [GoMap.get, bundleOf, List.lookup]

/-- C8, amended, on the record with the empty token. -/
theorem Generate_bundle_shape_witness :
    (Generate (demoDeps ⟨[some ⟨some "", some (timeAt ⟨1700000000, by decide⟩ utcLoc),
          some "https://123.dkr.ecr.us-east-1.amazonaws.com"⟩]⟩ none) ⟨0⟩
        (some ⟨[123, 125]⟩) ⟨0⟩ "default").outcome =
      .returned (some [("authorization_token", []),
        ("proxy_endpoint", toBytes "https://123.dkr.ecr.us-east-1.amazonaws.com"),
        ("expires_at", toBytes "1700000000")]) none ∧
    ∃ js t x p, some (JSON.mk [123, 125]) = some js ∧
      (registryResult (demoDeps ⟨[some ⟨some "",
          some (timeAt ⟨1700000000, by decide⟩ utcLoc),
          some "https://123.dkr.ecr.us-east-1.amazonaws.com"⟩]⟩ none) ⟨0⟩ js ⟨0⟩
        "default").1.AuthorizationData = [some ⟨some t, some x, some p⟩] ∧
      (∀ k, k ∈ GoMap.keys [("authorization_token", []),
          ("proxy_endpoint", toBytes "https://123.dkr.ecr.us-east-1.amazonaws.com"),
          ("expires_at", toBytes "1700000000")] ↔
        k = "authorization_token" ∨ k = "proxy_endpoint" ∨ k = "expires_at") ∧
      (GoMap.keys [("authorization_token", []),
          ("proxy_endpoint", toBytes "https://123.dkr.ecr.us-east-1.amazonaws.com"),
          ("expires_at", toBytes "1700000000")]).length = 3 ∧
      (∃ v, GoMap.get [("authorization_token", []),
          ("proxy_endpoint", toBytes "https://123.dkr.ecr.us-east-1.amazonaws.com"),
          ("expires_at", toBytes "1700000000")] "expires_at" = some v ∧ v ≠ []) ∧
      GoMap.get [("authorization_token", []),
          ("proxy_endpoint", toBytes "https://123.dkr.ecr.us-east-1.amazonaws.com"),
          ("expires_at", toBytes "1700000000")] "authorization_token" =
        some (toBytes t) ∧ (toBytes t ≠ [] ↔ t ≠ "") ∧
      GoMap.get [("authorization_token", []),
          ("proxy_endpoint", toBytes "https://123.dkr.ecr.us-east-1.amazonaws.com"),
          ("expires_at", toBytes "1700000000")] "proxy_endpoint" =
        some (toBytes p) ∧ (toBytes p ≠ [] ↔ p ≠ "") :=
  ⟨by decide,
    Generate_bundle_shape (demoDeps ⟨[some ⟨some "",
          some (timeAt ⟨1700000000, by decide⟩ utcLoc),
          some "https://123.dkr.ecr.us-east-1.amazonaws.com"⟩]⟩ none) ⟨0⟩
      (some ⟨[123, 125]⟩) ⟨0⟩ "default" _ (by decide)⟩

/-- C9, counterexample: the registry answers, at a moment when the clock reads Unix
second 1700000000, with a single record whose expiry is Unix second 0; `Generate`
succeeds and the value of `expires_at` is `0`, an instant earlier than the clock. -/
theorem Generate_expiry_in_the_past :
    (Generate (demoDeps ⟨[some ⟨some "TOKEN123", some (timeAt ⟨0, by decide⟩ utcLoc),
          some "https://123.dkr.ecr.us-east-1.amazonaws.com"⟩]⟩ none) ⟨0⟩
        (some ⟨[123, 125]⟩) ⟨0⟩ "default").outcome =
      .returned (some [("authorization_token", toBytes "TOKEN123"),
        ("proxy_endpoint", toBytes "https://123.dkr.ecr.us-east-1.amazonaws.com"),
        ("expires_at", toBytes "0")]) none ∧
    ParseInt "0" = some 0 ∧ ¬ ((1700000000 : Int) ≤ 0) := by
  decide

/-- C9, amended: on every successful call the value of `expires_at` is the bytes of a
decimal string which `strconv.ParseInt(s, 10, 64)` reads as `v`, the Unix seconds of the
expiry of the registry's record with its sub-second part dropped. For every current
time `now`, an instant in nanoseconds since the Unix epoch, the instant `v` denotes is
no earlier than `now` exactly when the expiry with its sub-second part dropped is no
earlier than `now`; hence whenever the denoted instant is no earlier than `now` so is
the expiry itself, and for a current time on a whole second the denoted instant is no
earlier than `now` exactly when the expiry is. -/
theorem Generate_expiry_vs_clock (d : Deps) (ctx : Context) (jsonSpec : Option JSON)
    (kube : KubeClient) (ns : String) (m : GoMap)
    (h : (Generate d ctx jsonSpec kube ns).outcome = .returned (some m) none) :
    ∃ js t x p s v, jsonSpec = some js ∧
      (registryResult d ctx js kube ns).1.AuthorizationData =
        [some ⟨some t, some x, some p⟩] ∧
      m.get "expires_at" = some (toBytes s) ∧ ParseInt s = some v ∧
      v * 1000000000 = x.UnixNano - (x.nsec.val : Int) ∧
      (∀ now : Int, now ≤ v * 1000000000 ↔ now ≤ x.UnixNano - (x.nsec.val : Int)) ∧
      (∀ now : Int, now ≤ v * 1000000000 → now ≤ x.UnixNano) ∧
      (∀ now : Int, now % 1000000000 = 0 →
        (now ≤ v * 1000000000 ↔ now ≤ x.UnixNano)) := by
  obtain ⟨js, t, x, p, hjs, _, _, _, hrec, hm⟩ :=
    Generate_bundle_inv d ctx jsonSpec kube ns m h
  have hn := x.nsec.isLt
  refine ⟨js, t, x, p, FormatInt x.UTC.Unix, x.sec.val, hjs, hrec, ?_, ?_, ?_, ?_, ?_, ?_⟩
  · rw [hm]; simp [GoMap.get, bundleOf, List.lookup]
  · exact ParseInt_FormatInt x.sec.val x.sec.property.1 x.sec.property.2
  · unfold Time.UnixNano
    omega
  · intro now
    unfold Time.UnixNano
    omega
  · intro now
    unfold Time.UnixNano
    omega
  · intro now hw
    unfold Time.UnixNano
    omega

/-- C9, amended, on a record that expires 100.9 seconds after the epoch, in a location
other than UTC: the value is `100`. -/
theorem Generate_expiry_vs_clock_witness :
    (Generate (demoDeps ⟨[some ⟨some "TOKEN123",
          some ⟨⟨100, by decide⟩, 900000000, ⟨"Europe/Paris"⟩⟩,
          some "https://123.dkr.ecr.us-east-1.amazonaws.com"⟩]⟩ none) ⟨0⟩
        (some ⟨[123, 125]⟩) ⟨0⟩ "default").outcome =
      .returned (some [("authorization_token", toBytes "TOKEN123"),
        ("proxy_endpoint", toBytes "https://123.dkr.ecr.us-east-1.amazonaws.com"),
        ("expires_at", toBytes "100")]) none ∧
    ∃ js t x p s v, some (JSON.mk [123, 125]) = some js ∧
      (registryResult (demoDeps ⟨[some ⟨some "TOKEN123",
          some ⟨⟨100, by decide⟩, 900000000, ⟨"Europe/Paris"⟩⟩,
          some "https://123.dkr.ecr.us-east-1.amazonaws.com"⟩]⟩ none) ⟨0⟩ js ⟨0⟩
        "default").1.AuthorizationData = [some ⟨some t, some x, some p⟩] ∧
      GoMap.get [("authorization_token", toBytes "TOKEN123"),
        ("proxy_endpoint", toBytes "https://123.dkr.ecr.us-east-1.amazonaws.com"),
        ("expires_at", toBytes "100")] "expires_at" = some (toBytes s) ∧
      ParseInt s = some v ∧
      v * 1000000000 = x.UnixNano - (x.nsec.val : Int) ∧
      (∀ now : Int, now ≤ v * 1000000000 ↔ now ≤ x.UnixNano - (x.nsec.val : Int)) ∧
      (∀ now : Int, now ≤ v * 1000000000 → now ≤ x.UnixNano) ∧
      (∀ now : Int, now % 1000000000 = 0 →
        (now ≤ v * 1000000000 ↔ now ≤ x.UnixNano)) :=
  ⟨by decide,
    Generate_expiry_vs_clock (demoDeps ⟨[some ⟨some "TOKEN123",
          some ⟨⟨100, by decide⟩, 900000000, ⟨"Europe/Paris"⟩⟩,
          some "https://123.dkr.ecr.us-east-1.amazonaws.com"⟩]⟩ none) ⟨0⟩
      (some ⟨[123, 125]⟩) ⟨0⟩ "default" _ (by decide)⟩

/-- C10, counterexample: the registry answers with a single record whose expiry is
absent; `Generate` neither returns a bundle nor returns an error, it panics on the nil
pointer, which is none of the six outcomes. -/
theorem Generate_absent_expiry_panics :
    (Generate (demoDeps ⟨[some ⟨some "TOKEN123", none,
          some "https://123.dkr.ecr.us-east-1.amazonaws.com"⟩]⟩ none) ⟨0⟩
        (some ⟨[123, 125]⟩) ⟨0⟩ "default").outcome =
      .panicked "runtime error: invalid memory address or nil pointer dereference" ∧
    ∀ q, ¬ Ends (Generate (demoDeps ⟨[some ⟨some "TOKEN123", none,
          some "https://123.dkr.ecr.us-east-1.amazonaws.com"⟩]⟩ none) ⟨0⟩
        (some ⟨[123, 125]⟩) ⟨0⟩ "default").outcome q := by
  have h : (Generate (demoDeps ⟨[some ⟨some "TOKEN123", none,
          some "https://123.dkr.ecr.us-east-1.amazonaws.com"⟩]⟩ none) ⟨0⟩
        (some ⟨[123, 125]⟩) ⟨0⟩ "default").outcome =
      .panicked "runtime error: invalid memory address or nil pointer dereference" := by
    decide
  refine ⟨h, fun q => ?_⟩
  rw [h]
  exact Ends_panicked _ q

/-- C10, amended: for every payload and every behaviour of the decoder and of the two
delegates in which a registry answer of a single record has that record and its token,
expiry and endpoint present, the call ends in exactly one of the six outcomes — the one
of the first step that fails in the order payload check, decode, authentication,
registry call, cardinality check, or the success path when none fails. It returns
either a bundle of exactly the three keys and a nil error, or a nil bundle and a
non-nil error: never both, never neither. -/
theorem Generate_six_outcomes (d : Deps) (ctx : Context) (jsonSpec : Option JSON)
    (kube : KubeClient) (ns : String) (hc : SingleRecordComplete d ctx jsonSpec kube ns) :
    (∀ q, Ends (Generate d ctx jsonSpec kube ns).outcome q ↔
      q = firstFailure d ctx jsonSpec kube ns) ∧
    ((∃ m, (Generate d ctx jsonSpec kube ns).outcome = .returned (some m) none) ∨
      (∃ e, (Generate d ctx jsonSpec kube ns).outcome = .returned none (some e))) := by
  cases jsonSpec with
  | none =>
    rw [Generate_none]
    exact ⟨fun q => by simpa [firstFailure] using Ends_missing q, Or.inr ⟨_, rfl⟩⟩
  | some js =>
    cases h1 : decodeErr d js with
    | some e =>
      rw [Generate_decode_error d ctx js kube ns e h1]
      exact ⟨fun q => by simpa [firstFailure, h1] using Ends_invalid e q, Or.inr ⟨_, rfl⟩⟩
    | none =>
      cases h2 : (authResult d ctx js kube ns).2 with
      | some e =>
        rw [Generate_auth_error d ctx js kube ns e h1 h2]
        exact ⟨fun q => by simpa [firstFailure, h1, h2] using Ends_auth e q,
          Or.inr ⟨_, rfl⟩⟩
      | none =>
        cases h3 : (registryResult d ctx js kube ns).2 with
        | some e =>
          rw [Generate_registry_error d ctx js kube ns e h1 h2 h3]
          exact ⟨fun q => by simpa [firstFailure, h1, h2, h3] using Ends_upstream e q,
            Or.inr ⟨_, rfl⟩⟩
        | none =>
          by_cases h4 : (registryResult d ctx js kube ns).1.AuthorizationData.length = 1
          · obtain ⟨r, hr⟩ := List.length_eq_one.mp h4
            obtain ⟨t, x, p, hrec⟩ := hc js r rfl h1 h2 h3 hr
            rw [Generate_single d ctx js kube ns r h1 h2 h3 hr, hrec]
            exact ⟨fun q => by
              simpa [firstFailure, h1, h2, h3, h4, assemble] using Ends_success t p x q,
              Or.inl ⟨_, rfl⟩⟩
          · rw [Generate_count_error d ctx js kube ns h1 h2 h3 h4]
            exact ⟨fun q => by
              simpa [firstFailure, h1, h2, h3, h4] using Ends_count _ h4 q,
              Or.inr ⟨_, rfl⟩⟩

/-- C10, amended, on the worked example, which ends on the success path. -/
theorem Generate_six_outcomes_witness :
    SingleRecordComplete (demoDeps ⟨[some demoRecord]⟩ none) ⟨0⟩ (some ⟨[123, 125]⟩) ⟨0⟩
        "default" ∧
      firstFailure (demoDeps ⟨[some demoRecord]⟩ none) ⟨0⟩ (some ⟨[123, 125]⟩) ⟨0⟩
        "default" = .Success ∧
      (∀ q, Ends (Generate (demoDeps ⟨[some demoRecord]⟩ none) ⟨0⟩ (some ⟨[123, 125]⟩) ⟨0⟩
          "default").outcome q ↔
        q = firstFailure (demoDeps ⟨[some demoRecord]⟩ none) ⟨0⟩ (some ⟨[123, 125]⟩) ⟨0⟩
          "default") ∧
      ((∃ m, (Generate (demoDeps ⟨[some demoRecord]⟩ none) ⟨0⟩ (some ⟨[123, 125]⟩) ⟨0⟩
          "default").outcome = .returned (some m) none) ∨
        (∃ e, (Generate (demoDeps ⟨[some demoRecord]⟩ none) ⟨0⟩ (some ⟨[123, 125]⟩) ⟨0⟩
          "default").outcome = .returned none (some e))) :=
  have hc : SingleRecordComplete (demoDeps ⟨[some demoRecord]⟩ none) ⟨0⟩
      (some ⟨[123, 125]⟩) ⟨0⟩ "default" := fun _ r _ _ _ _ hr =>
    ⟨"TOKEN123", timeAt ⟨1700000000, by decide⟩ utcLoc,
      "https://123.dkr.ecr.us-east-1.amazonaws.com", (List.cons.inj hr).1.symm⟩
  ⟨hc, by decide, Generate_six_outcomes (demoDeps ⟨[some demoRecord]⟩ none) ⟨0⟩
    (some ⟨[123, 125]⟩) ⟨0⟩ "default" hc⟩

end ECR
